import Mathlib

/-!
# Verification of the md-to-pretty-pdf converter

Shallow embedding, in Lean 4, of the parts of the repository
`Kasahs/md-to-pretty-pdf` that the specification's claims are about:

* `src/index.js` — the current converter (commander CLI, `processSVG`,
  `imageToDataURL`, `processLocalImages`, `generateHTML`, `mmToPixels`,
  `convertMarkdownToPdf`);
* `examples/generate_png.js` (the file also carries the README and the
  legacy converter script) — legacy argument validation and the legacy
  `fullHtml` assembly with per-heading font-size overrides.

Modelling conventions:

* JavaScript numbers are modelled over exact rationals (`ℚ`), with the
  distinguished non-finite values `NaN`/`Infinity`/`-Infinity` carried
  explicitly by `JSNum` where the control flow inspects them
  (`isNaN`, comparisons in the legacy validator).  `Math.floor` is `Int.floor`.
* Strings are Lean `String`s; the scanning functions work on `List Char`
  (JavaScript's per-code-unit string ops are used by the source only on
  BMP/ASCII data, where code units and characters coincide).
* The filesystem is a pure map from paths to contents; a read that would
  reject in Node returns `none`.  `fs.readFile(p, "utf-8")` is `readText`,
  `fs.readFile(p)` is `readBin` (the byte view of the same store).
* `console.warn` is modelled by accumulating `Warn` values.
-/

namespace MdToPdf

/-! ## JavaScript numeric values (for the CLI layer) -/

/-- A parsed JavaScript number: a finite value (exact rational) or one of
the non-finite doubles that `parseFloat`/`parseInt` can produce. -/
inductive JSNum where
  | nan : JSNum
  | inf : JSNum
  | ninf : JSNum
  | num : ℚ → JSNum
deriving DecidableEq

/-- JavaScript `isNaN`. -/
def JSNum.isNaN : JSNum → Bool
  | .nan => true
  | _ => false

/-- JavaScript `x <= q` for a finite literal `q` (comparisons with `NaN`
are `false`). -/
def JSNum.le (x : JSNum) (q : ℚ) : Bool :=
  match x with
  | .nan => false
  | .inf => false
  | .ninf => true
  | .num v => decide (v ≤ q)

/-- JavaScript `x < q` for a finite literal `q` (comparisons with `NaN`
are `false`). -/
def JSNum.lt (x : JSNum) (q : ℚ) : Bool :=
  match x with
  | .nan => false
  | .inf => false
  | .ninf => true
  | .num v => decide (v < q)

/-- JavaScript truthiness of a number (`0` and `NaN` are falsy). -/
def JSNum.truthy : JSNum → Bool
  | .nan => false
  | .num v => decide (v ≠ 0)
  | _ => true

/-! ## Command-line layer

`src/index.js` lines 378-408: commander is configured with `--scale`
(`parseFloat`, default `1.0`), `--font-size` (`parseInt`, default `16`) and a
single uniform `--margin` (`parseFloat`, no default), and the `action`
callback builds the options record and calls `convertMarkdownToPdf`
unconditionally — it contains no validation and no early exit.

The legacy script (the third document inside `examples/generate_png.js`,
lines 392-410 of that file) parses with `getArgValue`/`parseFloat` and then
validates: `isNaN(scale) || scale <= 0`, `isNaN(fontSize) || fontSize <= 0`,
and for each margin side in insertion order `isNaN(value) || value < 0`,
each failure printing a diagnostic naming the field and calling
`process.exit(1)` before `convertMarkdownToPdf` is invoked (hence before
any file I/O of the conversion). -/

/-- Per-side margins as carried by both scripts. -/
structure JSMargins where
  top : JSNum
  right : JSNum
  bottom : JSNum
  left : JSNum
deriving DecidableEq

/-- The effective configuration handed to the conversion stage. -/
structure ConvConfig where
  scale : JSNum
  fontSize : JSNum
  margins : JSMargins
deriving DecidableEq

/-- Outcome of the pre-conversion command-line stage: either the program
proceeds into `convertMarkdownToPdf` with a configuration (file I/O starts
only then), or it exits with the given exit code after printing the given
diagnostic. -/
inductive CliOutcome where
  | proceed : ConvConfig → CliOutcome
  | exitError : Nat → String → CliOutcome
deriving DecidableEq

/-- Whether a CLI outcome is an error exit. -/
def CliOutcome.isExitError : CliOutcome → Bool
  | .exitError _ _ => true
  | _ => false

/-- `src/index.js` lines 386-405: the commander `action` callback.
`options.fontSize = options.fontSize || 16` (JavaScript `||`, so falsy
values — `0`, `NaN` — are replaced by `16`); `if (options.margin)` expands
the uniform margin to all four sides, otherwise the 25.4 mm defaults are
used; then `convertMarkdownToPdf(inputPath, options)` is called.  There is
no validation branch in the source, so the outcome is always `proceed`. -/
def indexAction (scale fontSize : JSNum) (margin : Option JSNum) : CliOutcome :=
  let fontSize := if fontSize.truthy then fontSize else .num 16
  let margins : JSMargins :=
    if (margin.map JSNum.truthy).getD false then
      { top := margin.getD (.num 0), right := margin.getD (.num 0),
        bottom := margin.getD (.num 0), left := margin.getD (.num 0) }
    else
      { top := .num 25.4, right := .num 25.4, bottom := .num 25.4, left := .num 25.4 }
  .proceed { scale := scale, fontSize := fontSize, margins := margins }

/-- Legacy script, lines 392-413 of `examples/generate_png.js`: validation
of the parsed values, in source order, each failure exiting with code 1;
when everything passes, `convertMarkdownToPdf` is called. -/
def legacyValidateAndRun (scale fontSize : JSNum) (margins : JSMargins) : CliOutcome :=
  if scale.isNaN || scale.le 0 then
    .exitError 1 "Error: Scale factor must be a positive number"
  else if fontSize.isNaN || fontSize.le 0 then
    .exitError 1 "Error: Font size must be a positive number"
  else if margins.top.isNaN || margins.top.lt 0 then
    .exitError 1 "Error: top margin must be a non-negative number"
  else if margins.right.isNaN || margins.right.lt 0 then
    .exitError 1 "Error: right margin must be a non-negative number"
  else if margins.bottom.isNaN || margins.bottom.lt 0 then
    .exitError 1 "Error: bottom margin must be a non-negative number"
  else if margins.left.isNaN || margins.left.lt 0 then
    .exitError 1 "Error: left margin must be a non-negative number"
  else
    .proceed { scale := scale, fontSize := fontSize, margins := margins }

/-! ## Viewport sizing (`src/index.js` lines 282-284)

`const mmToPixels = (mm) => Math.floor((mm * 96) / 25.4);`
`const viewportWidth = mmToPixels(210);`
`const viewportHeight = mmToPixels(297);` -/

/-- `Math.floor((mm * 96) / 25.4)`, over exact rationals. -/
def mmToPixels (mm : ℚ) : ℤ := ⌊(mm * 96) / 25.4⌋

/-- `mmToPixels(210)`. -/
def viewportWidth : ℤ := mmToPixels 210

/-- `mmToPixels(297)`. -/
def viewportHeight : ℤ := mmToPixels 297

/-! ## Output path (`src/index.js` lines 330-331)

`const outputPath = inputPath.replace(/\.md$/, ".pdf");` — the same line
appears in the legacy script.  The regex anchors the literal `.md` at the
end of the string; when it does not match, `String.prototype.replace`
returns the input unchanged, and `page.pdf({ path: outputPath, ... })`
then writes the PDF over the input file itself. -/

/-- Whether the regex `/\.md$/` matches, i.e. the char list ends in the
three characters `.md`. -/
def mdSuffixMatch (l : List Char) : Bool :=
  match l.reverse with
  | 'd' :: 'm' :: '.' :: _ => true
  | _ => false

/-- `inputPath.replace(/\.md$/, ".pdf")`. -/
def outputPathOf (inputPath : String) : String :=
  if mdSuffixMatch inputPath.data then
    ⟨inputPath.data.take (inputPath.data.length - 3)⟩ ++ ".pdf"
  else inputPath

/-- Directory part of a path: the characters strictly before the last `/`
(the whole path has no directory part when it contains no `/`).  Used only
to express "written in the same directory". -/
def dirPartOf (p : String) : List Char :=
  ((p.data.reverse.dropWhile (fun c => c ≠ '/')).drop 1).reverse

/-! ## Computed font-size style overrides

`src/index.js` lines 161-176 (`generateHTML`): the only font-size rule the
assembled document's `<style>` block computes from the configuration is

    .markdown-body { font-size: ${options.fontSize}px; }

— there are no heading or code overrides in the current assembler.

Legacy script (`fullHtml`, lines 232-258 of `examples/generate_png.js`):

    .markdown-body { font-size: ${fontSize}px !important; }
    .markdown-body pre, .markdown-body code
        { font-size: ${Math.floor(fontSize * 0.9)}px !important; }
    .markdown-body h1 { font-size: ${fontSize * 2}px !important; }
    .markdown-body h2 { font-size: ${fontSize * 1.5}px !important; }
    .markdown-body h3 { font-size: ${fontSize * 1.25}px !important; }
    .markdown-body h4 { font-size: ${fontSize * 1.1}px !important; }
    .markdown-body h5 { font-size: ${fontSize}px !important; }
    .markdown-body h6 { font-size: ${fontSize * 0.9}px !important; }

Each embedding below lists, in source order, the `(selector, pixel value)`
pairs of the font-size rules computed from `fontSize`; multiplications are
exact over `ℚ`. -/

/-- Computed font-size overrides of the document assembled by
`generateHTML` in `src/index.js`. -/
def generateHTMLFontRules (fontSize : ℚ) : List (String × ℚ) :=
  [(".markdown-body", fontSize)]

/-- Computed font-size overrides of the legacy script's `fullHtml`. -/
def legacyFullHtmlFontRules (fontSize : ℚ) : List (String × ℚ) :=
  [ (".markdown-body", fontSize),
    (".markdown-body pre, .markdown-body code", (⌊fontSize * 0.9⌋ : ℤ)),
    (".markdown-body h1", fontSize * 2),
    (".markdown-body h2", fontSize * 1.5),
    (".markdown-body h3", fontSize * 1.25),
    (".markdown-body h4", fontSize * 1.1),
    (".markdown-body h5", fontSize),
    (".markdown-body h6", fontSize * 0.9) ]

/-! ## Browser lifecycle of `convertMarkdownToPdf` (`src/index.js` lines 226-375)

The whole body of `convertMarkdownToPdf` is one `try { ... } catch (error)
{ ... console.error("Error:", error); process.exit(1); }`.  Inside the
`try`, the externally-fallible steps run in source order; `browser.close()`
(line 353) is executed only as the step following the successful
`page.pdf(...)` call.  The `catch` block logs and exits — it contains no
`browser.close()` call.

The model below runs the steps in order with an oracle saying which step
(if any) throws; it records whether `puppeteer.launch()` succeeded
(`launched`), whether `browser.close()` was executed (`browserClosed`), and
the process exit code (`0` success, `1` via the catch handler). -/

/-- The externally-fallible steps of `convertMarkdownToPdf`, in source
order. -/
inductive ConvStep where
  | readInput      -- fs.readFile(inputPath)
  | parseMarkdown  -- marked.parse
  | inlineImages   -- processLocalImages
  | assembleHtml   -- generateHTML (reads the three CSS files)
  | launchBrowser  -- puppeteer.launch()
  | newPage        -- browser.newPage() and page configuration
  | setContent     -- page.setContent(finalHtml, ...)
  | settleImages   -- page.evaluate image wait + pending-set drain
  | applyScale     -- page.evaluate CSS transform (when scale != 1.0)
  | writePdf       -- page.pdf({ path: outputPath, ... })
  | closeBrowser   -- browser.close()
deriving DecidableEq

/-- Source order of the steps. -/
def ConvStep.idx : ConvStep → Nat
  | .readInput => 0
  | .parseMarkdown => 1
  | .inlineImages => 2
  | .assembleHtml => 3
  | .launchBrowser => 4
  | .newPage => 5
  | .setContent => 6
  | .settleImages => 7
  | .applyScale => 8
  | .writePdf => 9
  | .closeBrowser => 10

/-- Observable outcome of one `convertMarkdownToPdf` run. -/
structure ConvOutcome where
  launched : Bool
  browserClosed : Bool
  exitCode : Nat
deriving DecidableEq

/-- Execute the steps of the `try` block in order.  A step equal to
`failAt` throws: control transfers to the `catch` handler, which runs
`process.exit(1)` without touching the browser. -/
def runConvSteps (failAt : Option ConvStep) :
    List ConvStep → Bool → Bool → ConvOutcome
  | [], launched, closed => { launched := launched, browserClosed := closed, exitCode := 0 }
  | s :: rest, launched, closed =>
    if failAt = some s then
      { launched := launched, browserClosed := closed, exitCode := 1 }
    else
      runConvSteps failAt rest (launched || s = .launchBrowser) (closed || s = .closeBrowser)

/-- Run `convertMarkdownToPdf` with an oracle naming the step that throws
(`none`: every step succeeds). -/
def convertMarkdownToPdf (failAt : Option ConvStep) : ConvOutcome :=
  runConvSteps failAt
    [.readInput, .parseMarkdown, .inlineImages, .assembleHtml, .launchBrowser,
     .newPage, .setContent, .settleImages, .applyScale, .writePdf, .closeBrowser]
    false false

/-! ## Char-list helpers (JavaScript string primitives) -/

/-- `pat` occurs at the front of `l`. -/
def startsWithL : List Char → List Char → Bool
  | _, [] => true
  | [], _ :: _ => false
  | c :: cs, p :: ps => c = p && startsWithL cs ps

/-- `String.prototype.includes`: `pat` occurs somewhere in `l`. -/
def containsSub (l pat : List Char) : Bool :=
  match l with
  | [] => startsWithL [] pat
  | _ :: cs => startsWithL l pat || containsSub cs pat

/-- `String.prototype.replace` with a plain-string pattern: replace the
first occurrence of `pat` (if any) by `rep`. -/
def replaceFirstL (l pat rep : List Char) : List Char :=
  match l with
  | [] => if startsWithL [] pat then rep else []
  | c :: cs =>
    if startsWithL l pat then rep ++ l.drop pat.length
    else c :: replaceFirstL cs pat rep

/-- String wrapper for `replaceFirstL`. -/
def replaceFirst (s pat rep : String) : String :=
  ⟨replaceFirstL s.data pat.data rep.data⟩

/-- String wrapper for `containsSub`. -/
def strContains (s pat : String) : Bool := containsSub s.data pat.data

/-! ## Path primitives (Node `path`, as used by the source) -/

/-- ASCII `String.prototype.toLowerCase` (the source applies it to file
extensions). -/
def toLowerStr (s : String) : String := ⟨s.data.map Char.toLower⟩

/-- `path.basename`-like helper: the characters after the last `/`. -/
def basenamePart (l : List Char) : List Char :=
  (l.reverse.takeWhile (fun c => c ≠ '/')).reverse

/-- Node `path.extname`: from the last `.` of the basename to the end;
a leading dot (dotfile) does not start an extension; `""` when there is no
dot. -/
def extnameOf (p : String) : String :=
  let b := basenamePart p.data
  let afterDot := b.reverse.takeWhile (fun c => c ≠ '.')
  if afterDot.length < b.length then
    -- a dot exists, at position `b.length - afterDot.length - 1`
    if b.length - afterDot.length - 1 = 0 then ""  -- dotfile: ".bashrc"
    else ⟨'.' :: afterDot.reverse⟩
  else ""

/-- Node `path.resolve(basePath, src)` as used on image paths: an already
absolute `src` stays as is, a relative one is joined to the base directory.
(Node additionally normalises `.`/`..` segments; none of the claims depend
on normalisation, so the join is kept literal.) -/
def pathResolve (basePath src : String) : String :=
  if startsWithL src.data ['/'] then src else basePath ++ "/" ++ src

/-! ## Filesystem model

A pure snapshot of the files the inliner may read.  `readText p` models
`fs.readFile(p, "utf-8")` (the decoded text), `readBin p` models
`fs.readFile(p)` (the raw bytes, each `< 256`); a read that Node would
reject returns `none`.  The two views are consistent by construction of a
concrete snapshot (the text is the UTF-8 decoding of the bytes); no claim
relates the two views of one file, so the consistency is not imposed. -/
structure FileSys where
  readText : String → Option String
  readBin : String → Option (List Nat)

/-- Warnings printed with `console.warn` by the inliner. -/
inductive Warn where
  | couldNotProcessSVG : String → Warn   -- processSVG catch, src/index.js line 58
  | couldNotLoadImage : String → Warn    -- imageToDataURL catch, line 87
  | couldNotProcessImage : String → Warn -- processLocalImages catch, line 120
deriving DecidableEq, Repr

/-! ## `encodeURIComponent`

JavaScript's `encodeURIComponent` leaves the unreserved characters
`A-Z a-z 0-9 - _ . ! ~ * ' ( )` verbatim and replaces every other
character by the percent-encoding `%XX` (uppercase hex) of each byte of
its UTF-8 encoding. -/

/-- The characters `encodeURIComponent` leaves verbatim, by code point:
`A-Z` (65-90), `a-z` (97-122), `0-9` (48-57), and
`- _ . ! ~ * ' ( )` (45, 95, 46, 33, 126, 42, 39, 40, 41). -/
def isUnreservedURIChar (c : Char) : Bool :=
  let n := c.toNat
  (65 ≤ n && n ≤ 90) || (97 ≤ n && n ≤ 122) || (48 ≤ n && n ≤ 57) ||
    n = 45 || n = 95 || n = 46 || n = 33 || n = 126 || n = 42 || n = 39 ||
    n = 40 || n = 41

/-- UTF-8 encoding of a code point as bytes. -/
def utf8EncodeChar (n : Nat) : List Nat :=
  if n < 0x80 then [n]
  else if n < 0x800 then [0xC0 + n / 64, 0x80 + n % 64]
  else if n < 0x10000 then
    [0xE0 + n / 4096, 0x80 + (n / 64) % 64, 0x80 + n % 64]
  else
    [0xF0 + n / 262144, 0x80 + (n / 4096) % 64, 0x80 + (n / 64) % 64, 0x80 + n % 64]

/-- UTF-8 byte sequence of a whole string. -/
def utf8EncodeList (l : List Char) : List Nat :=
  l.flatMap (fun c => utf8EncodeChar c.toNat)

/-- Uppercase hexadecimal digit. -/
def hexDigitUpper (n : Nat) : Char :=
  if n < 10 then Char.ofNat (48 + n) else Char.ofNat (55 + n)

/-- `%XX` encoding of one byte. -/
def percentEncodeByte (b : Nat) : List Char :=
  ['%', hexDigitUpper (b / 16), hexDigitUpper (b % 16)]

/-- Encoding of a single character. -/
def encodeURIChar (c : Char) : List Char :=
  if isUnreservedURIChar c then [c]
  else (utf8EncodeChar c.toNat).flatMap percentEncodeByte

/-- JavaScript `encodeURIComponent`. -/
def encodeURIComponent (s : String) : String :=
  ⟨s.data.flatMap encodeURIChar⟩

/-! ## Percent-decoding

The inverse direction used to state the SVG round-trip: a percent-encoded
`utf8` data-URL payload is consumed by decoding each `%XX` escape to a
byte (literal characters stand for their own code) and UTF-8-decoding the
resulting byte sequence — exactly how a `data:...;utf8,` URL is read. -/

/-- Value of a hexadecimal digit (both cases accepted). -/
def hexVal (c : Char) : Option Nat :=
  let n := c.toNat
  if 48 ≤ n ∧ n ≤ 57 then some (n - 48)
  else if 65 ≤ n ∧ n ≤ 70 then some (n - 55)
  else if 97 ≤ n ∧ n ≤ 102 then some (n - 87)
  else none

/-- State of the percent-decoder: between escapes, after `%`, after `%X`,
or failed. -/
inductive PDState where
  | norm : PDState
  | saw1 : PDState
  | saw2 : Nat → PDState
  | fail : PDState
deriving DecidableEq

/-- One step of the percent-decoder, accumulating output bytes. -/
def pdStep : PDState × List Nat → Char → PDState × List Nat
  | (.norm, out), c => if c = '%' then (.saw1, out) else (.norm, out ++ [c.toNat])
  | (.saw1, out), c =>
    match hexVal c with
    | some h => (.saw2 h, out)
    | none => (.fail, out)
  | (.saw2 h, out), c =>
    match hexVal c with
    | some l => (.norm, out ++ [h * 16 + l])
    | none => (.fail, out)
  | (.fail, out), _ => (.fail, out)

/-- Percent-decode a character sequence to bytes; `none` on a malformed
or truncated escape. -/
def percentDecodeBytes (l : List Char) : Option (List Nat) :=
  match l.foldl pdStep (.norm, []) with
  | (.norm, out) => some out
  | _ => none

/-- State of the UTF-8 decoder: ready for a leading byte, or expecting
`k` more continuation bytes with partial code point `acc`, or failed. -/
inductive U8State where
  | norm : U8State
  | need : Nat → Nat → U8State
  | fail : U8State
deriving DecidableEq

/-- One step of the UTF-8 decoder, accumulating code points.  (A lenient
decoder: continuation bytes are range-checked, overlong forms are not
rejected; the round-trip theorems only ever run it on encoder output.) -/
def u8Step : U8State × List Nat → Nat → U8State × List Nat
  | (.norm, out), b =>
    if b < 0x80 then (.norm, out ++ [b])
    else if b < 0xC0 then (.fail, out)
    else if b < 0xE0 then (.need 1 (b - 0xC0), out)
    else if b < 0xF0 then (.need 2 (b - 0xE0), out)
    else if b < 0xF8 then (.need 3 (b - 0xF0), out)
    else (.fail, out)
  | (.need k acc, out), b =>
    if 0x80 ≤ b ∧ b < 0xC0 then
      match k with
      | 1 => (.norm, out ++ [acc * 64 + (b - 0x80)])
      | k + 2 => (.need (k + 1) (acc * 64 + (b - 0x80)), out)
      | 0 => (.fail, out)
    else (.fail, out)
  | (.fail, out), _ => (.fail, out)

/-- UTF-8-decode a byte sequence to code points; `none` on an invalid or
truncated sequence. -/
def utf8DecodeBytes (l : List Nat) : Option (List Nat) :=
  match l.foldl u8Step (.norm, []) with
  | (.norm, out) => some out
  | _ => none

/-- Turn code points back into characters; `none` on a non-scalar value. -/
def charsOfCodepoints (l : List Nat) : Option (List Char) :=
  l.mapM (fun n => if h : n.isValidChar then some (Char.ofNatAux n h) else none)

/-- Percent-decoding of a string: `%XX` escapes to bytes, then UTF-8. -/
def percentDecode (s : String) : Option String :=
  (percentDecodeBytes s.data).bind fun bytes =>
    (utf8DecodeBytes bytes).bind fun cps =>
      (charsOfCodepoints cps).map fun cs => ⟨cs⟩

/-! ## Base64 (Node `Buffer.prototype.toString("base64")`) -/

/-- The base64 alphabet, by index. -/
def b64Char (n : Nat) : Char :=
  if n < 26 then Char.ofNat (65 + n)            -- 'A'..'Z'
  else if n < 52 then Char.ofNat (97 + (n - 26)) -- 'a'..'z'
  else if n < 62 then Char.ofNat (48 + (n - 52)) -- '0'..'9'
  else if n = 62 then '+'
  else '/'

/-- Index of a base64 alphabet character. -/
def b64Val (c : Char) : Option Nat :=
  let n := c.toNat
  if 65 ≤ n ∧ n ≤ 90 then some (n - 65)
  else if 97 ≤ n ∧ n ≤ 122 then some (n - 97 + 26)
  else if 48 ≤ n ∧ n ≤ 57 then some (n - 48 + 52)
  else if n = 43 then some 62
  else if n = 47 then some 63
  else none

/-- Standard padded base64 encoding of a byte list. -/
def base64EncodeL : List Nat → List Char
  | [] => []
  | [a] => [b64Char (a / 4), b64Char (a % 4 * 16), '=', '=']
  | [a, b] => [b64Char (a / 4), b64Char (a % 4 * 16 + b / 16), b64Char (b % 16 * 4), '=']
  | a :: b :: c :: rest =>
    b64Char (a / 4) :: b64Char (a % 4 * 16 + b / 16) ::
      b64Char (b % 16 * 4 + c / 64) :: b64Char (c % 64) :: base64EncodeL rest

/-- String wrapper for `base64EncodeL`. -/
def base64Encode (bytes : List Nat) : String := ⟨base64EncodeL bytes⟩

/-- Standard base64 decoding; `none` on anything that is not a padded
base64 string. -/
def base64DecodeL : List Char → Option (List Nat)
  | [] => some []
  | c1 :: c2 :: c3 :: c4 :: rest =>
    (b64Val c1).bind fun v1 =>
      (b64Val c2).bind fun v2 =>
        if c3 = '=' then
          if c4 = '=' ∧ rest = [] then some [v1 * 4 + v2 / 16] else none
        else
          (b64Val c3).bind fun v3 =>
            if c4 = '=' then
              if rest = [] then some [v1 * 4 + v2 / 16, v2 % 16 * 16 + v3 / 4]
              else none
            else
              (b64Val c4).bind fun v4 =>
                (base64DecodeL rest).map fun tail =>
                  (v1 * 4 + v2 / 16) :: (v2 % 16 * 16 + v3 / 4) :: (v3 % 4 * 64 + v4) :: tail
  | _ => none

/-- String wrapper for `base64DecodeL`. -/
def base64Decode (s : String) : Option (List Nat) := base64DecodeL s.data

/-! ## The image inliner (`src/index.js` lines 49-128) -/

/-- `processSVG` (lines 49-63): read the file as text; throw (caught
locally, warning, `null`) unless the text contains `"<svg"`; otherwise
return the text. -/
def processSVG (fsys : FileSys) (filePath : String) : Option String × List Warn :=
  match fsys.readText filePath with
  | none => (none, [.couldNotProcessSVG filePath])
  | some svgContent =>
    if strContains svgContent "<svg" then (some svgContent, [])
    else (none, [.couldNotProcessSVG filePath])

/-- `imageToDataURL` (lines 71-92): `.svg` (extension lowercased) goes
through `processSVG` and becomes a percent-encoded `utf8` data URL (or
`null` when `processSVG` failed); every other extension is read as binary
and base64-encoded, with `.jpg` mapped to MIME `jpeg` and any other
extension kept verbatim; a read failure is caught, warned about, and the
(already resolved) input path itself is returned. -/
def imageToDataURL (fsys : FileSys) (imagePath : String) : Option String × List Warn :=
  if toLowerStr (extnameOf imagePath) = ".svg" then
    match processSVG fsys imagePath with
    | (some svgContent, w) =>
      (some ("data:image/svg+xml;utf8," ++ encodeURIComponent svgContent), w)
    | (none, w) => (none, w)
  else
    match fsys.readBin imagePath with
    | some imageBuffer =>
      let extension := (toLowerStr (extnameOf imagePath)).drop 1
      let mimeType := "image/" ++ (if extension = "jpg" then "jpeg" else extension)
      (some ("data:" ++ mimeType ++ ";base64," ++ base64Encode imageBuffer), [])
    | none => (some imagePath, [.couldNotLoadImage imagePath])

/-! ### The `<img>` regex

`const imgRegex = /<img[^>]+src=["']([^"']+)["'][^>]*>/g;` (line 102) and
`html.matchAll(imgRegex)`.  The matcher below reproduces the backtracking
semantics of this concrete pattern:

* a match starts at a literal `<img`;
* `[^>]+` is greedy, so among the positions reachable without crossing a
  `>` the *last* one at which `src=["']...` succeeds is taken;
* the capture `[^"']+` is the nonempty run up to the next quote (either
  quote character may close it);
* `[^>]*>` then extends the match to the next `>`;
* `matchAll` resumes scanning after the end of each match. -/

/-- Try to match `src=["']([^"']+)["'][^>]*>` at the head of `l`; on
success return the capture and the remainder after the whole match. -/
def matchSrcTail (l : List Char) : Option (List Char × List Char) :=
  match l with
  | 's' :: 'r' :: 'c' :: '=' :: q :: rest =>
    if q = '"' ∨ q = '\'' then
      let cap := rest.takeWhile (fun c => ¬(c = '"' ∨ c = '\''))
      match cap, rest.dropWhile (fun c => ¬(c = '"' ∨ c = '\'')) with
      | [], _ => none
      | _ :: _, _ :: rest3 =>
        match rest3.dropWhile (fun c => c ≠ '>') with
        | '>' :: rest5 => some (cap, rest5)
        | _ => none
      | _ :: _, [] => none
    else none
  | _ => none

/-- Greedy `[^>]+` backtracking: try `src=...` after `d` leading non-`>`
characters, for `d` descending from its maximum; the first (largest) `d`
that succeeds wins. -/
def tryFromOffsets : Nat → List Char → Option (List Char × List Char)
  | 0, _ => none
  | d + 1, rest =>
    match matchSrcTail (rest.drop (d + 1)) with
    | some r => some r
    | none => tryFromOffsets d rest

/-- Try to match the whole `<img...>` pattern at the head of `l`. -/
def matchImgAt (l : List Char) : Option (List Char × List Char) :=
  match l with
  | '<' :: 'i' :: 'm' :: 'g' :: rest =>
    tryFromOffsets ((rest.takeWhile (fun c => c ≠ '>')).length) rest
  | _ => none

/-- `matchAll`: scan left to right, taking the leftmost match, then
resume after it.  `fuel` bounds the recursion (each step consumes at least
one character). -/
def imgMatchScan : Nat → List Char → List (List Char)
  | 0, _ => []
  | _ + 1, [] => []
  | fuel + 1, c :: cs =>
    match matchImgAt (c :: cs) with
    | some (src, rest) => src :: imgMatchScan fuel rest
    | none => imgMatchScan fuel cs

/-- The captured `src` attribute values of all `<img>` matches, in order
(`[...html.matchAll(imgRegex)]`, keeping group 1 of each match). -/
def imgSrcs (html : String) : List String :=
  (imgMatchScan (html.data.length + 1) html.data).map fun l => ⟨l⟩

/-- Loop body of `processLocalImages` (lines 105-125): srcs starting with
`http://`, `https://` or `data:` are skipped; otherwise the src is
resolved against the base path and converted; a truthy result replaces via
`html.replace(src, dataUrl)` the *first occurrence* of the src string in
the whole document.  (`imageToDataURL` never rejects, so the surrounding
`try`/`catch` — which would emit `couldNotProcessImage` — is dead.) -/
def processOneImage (fsys : FileSys) (basePath : String)
    (st : String × List Warn) (src : String) : String × List Warn :=
  if ¬(startsWithL src.data "http://".data) ∧ ¬(startsWithL src.data "https://".data) ∧
      ¬(startsWithL src.data "data:".data) then
    match imageToDataURL fsys (pathResolve basePath src) with
    | (some dataUrl, w) => (replaceFirst st.1 src dataUrl, st.2 ++ w)
    | (none, w) => (st.1, st.2 ++ w)
  else st

/-- `processLocalImages` (lines 101-128): the match list is computed once
on the incoming html, then each match is processed in order. -/
def processLocalImages (fsys : FileSys) (html basePath : String) :
    String × List Warn :=
  (imgSrcs html).foldl (processOneImage fsys basePath) (html, [])

/-! ## Concrete filesystem snapshots (used by witnesses and
counterexamples) -/

/-- A filesystem on which every read fails. -/
def fsFailAll : FileSys := ⟨fun _ => none, fun _ => none⟩

/-- A snapshot with one well-formed and one malformed SVG. -/
def fsSvgSample : FileSys :=
  ⟨fun p => if p = "a.svg" then some "<svg></svg>"
            else if p = "bad.svg" then some "plain text" else none,
   fun _ => none⟩

/-- A snapshot with a tiny PNG-prefix file and a tiny JPEG-prefix file. -/
def fsRasterSample : FileSys :=
  ⟨fun _ => none,
   fun p => if p = "a.png" then some [137, 80, 78, 71]
            else if p = "b.jpg" then some [255, 216] else none⟩

/-! # Theorems -/

/-! ## C8 — viewport pixel computation -/

/-- C8: Viewport pixel computation equals `floor(mm * 96 / 25.4)` for
every millimeter value; in particular mm=210 yields 793 pixels and mm=297
yields 1122 pixels for the A4 viewport.  (JavaScript numbers are modelled
as exact rationals; at 210 and 297 the double-precision evaluation and the
exact evaluation agree.) -/
theorem c8_viewport_pixels :
    (∀ mm : ℚ, mmToPixels mm = ⌊mm * 96 / 25.4⌋) ∧
    viewportWidth = 793 ∧ viewportHeight = 1122 := by
  refine ⟨fun mm => rfl, ?_, ?_⟩ <;>
    norm_num [viewportWidth, viewportHeight, mmToPixels]

/-! ## C9 / C10 — output path -/

/-- C9: For every input path (with its `.md` extension — the non-`.md`
case is claim C10), the output PDF path is deterministic: the `.md`
extension is replaced with `.pdf`, and the output lives in the same
directory as the input. -/
theorem c9_output_path_sibling (stem : String) :
    outputPathOf (stem ++ ".md") = stem ++ ".pdf" ∧
    dirPartOf (stem ++ ".pdf") = dirPartOf (stem ++ ".md") := by
  constructor
  · show (if mdSuffixMatch (stem ++ ".md").data then _ else _) = _
    rw [String.data_append]
    have hm : mdSuffixMatch (stem.data ++ (".md" : String).data) = true := by
      unfold mdSuffixMatch
      rw [List.reverse_append]
      rfl
    rw [if_pos hm]
    show (⟨(stem.data ++ ['.', 'm', 'd']).take ((stem.data ++ ['.', 'm', 'd']).length - 3)⟩ ++
        (".pdf" : String)) = _
    have hlen : (stem.data ++ ['.', 'm', 'd']).length - 3 = stem.data.length := by
      simp
    rw [hlen]
    rw [List.take_left]
  · unfold dirPartOf
    rw [String.data_append, String.data_append]
    rw [List.reverse_append, List.reverse_append]
    rfl

/-- C10: For every input path that does not end in `.md` (the regex
`/\.md$/` does not match), the computed output path equals the input path
itself, so the PDF is written over the input file. -/
theorem c10_output_path_non_md (p : String) (h : mdSuffixMatch p.data = false) :
    outputPathOf p = p := by
  unfold outputPathOf
  rw [h]
  rfl

/-- Witness for C10 at the concrete input `"notes.txt"`. -/
theorem c10_output_path_non_md_witness :
    mdSuffixMatch ("notes.txt" : String).data = false ∧
      outputPathOf "notes.txt" = "notes.txt" :=
  ⟨by decide, c10_output_path_non_md "notes.txt" (by decide)⟩

/-! ## C4 — browser teardown on exit paths -/

/-- C4: the claim states the browser is closed on every exit path.  The
code closes it only on the success path: when a step after
`puppeteer.launch()` throws — here `page.pdf(...)`, the `writePdf` step —
the `catch` handler exits with code 1 *without* `browser.close()`, so the
run ends with `launched = true`, `browserClosed = false`, `exitCode = 1`.
The success path does close the browser. -/
theorem c4_browser_teardown :
    convertMarkdownToPdf none = { launched := true, browserClosed := true, exitCode := 0 } ∧
    convertMarkdownToPdf (some .writePdf) =
      { launched := true, browserClosed := false, exitCode := 1 } := by
  constructor <;> rfl

/-! ## C1 — computed font-size overrides -/

/-- C1 counterexample: at the concrete font size F = 16, the document
assembled by `generateHTML` in `src/index.js` computes no `h1` font-size
override at all (its only computed override is the base
`.markdown-body` rule), so the claim that the assembled document's
computed overrides set h1 = 2F fails. -/
theorem c1_counterexample :
    (generateHTMLFontRules 16).lookup ".markdown-body h1" = none := by rfl

/-- C1 (amended): for every positive font size F, the current assembler's
computed overrides set only the base container to F pixels; the
heading/code multiplier overrides exist only in the legacy script's
assembled document, where they are exactly h1=2F, h2=1.5F, h3=1.25F,
h4=1.1F, h5=F, h6=0.9F and code=floor(0.9F) pixels (and the base
container F). -/
theorem c1_font_overrides_amended (F : ℚ) (hF : 0 < F) :
    (generateHTMLFontRules F).lookup ".markdown-body" = some F ∧
    generateHTMLFontRules F = [(".markdown-body", F)] ∧
    (legacyFullHtmlFontRules F).lookup ".markdown-body" = some F ∧
    (legacyFullHtmlFontRules F).lookup ".markdown-body h1" = some (2 * F) ∧
    (legacyFullHtmlFontRules F).lookup ".markdown-body h2" = some (1.5 * F) ∧
    (legacyFullHtmlFontRules F).lookup ".markdown-body h3" = some (1.25 * F) ∧
    (legacyFullHtmlFontRules F).lookup ".markdown-body h4" = some (1.1 * F) ∧
    (legacyFullHtmlFontRules F).lookup ".markdown-body h5" = some F ∧
    (legacyFullHtmlFontRules F).lookup ".markdown-body h6" = some (0.9 * F) ∧
    (legacyFullHtmlFontRules F).lookup ".markdown-body pre, .markdown-body code" =
      some ((⌊0.9 * F⌋ : ℤ) : ℚ) := by
  refine ⟨?_, rfl, ?_, ?_, ?_, ?_, ?_, ?_, ?_, ?_⟩ <;>
    simp [generateHTMLFontRules, legacyFullHtmlFontRules, List.lookup] <;>
    first
      | rfl
      | ring_nf

/-- Witness for C1 (amended) at F = 16: h1=32, h2=24, h3=20, h4=17.6,
h5=16, h6=14.4, code=floor(14.4)=14. -/
theorem c1_font_overrides_amended_witness :
    (0 : ℚ) < 16 ∧
    (legacyFullHtmlFontRules 16).lookup ".markdown-body h1" = some (2 * 16) ∧
    (legacyFullHtmlFontRules 16).lookup ".markdown-body pre, .markdown-body code" =
      some ((⌊(0.9 : ℚ) * 16⌋ : ℤ) : ℚ) :=
  ⟨by norm_num,
   (c1_font_overrides_amended 16 (by norm_num)).2.2.2.1,
   (c1_font_overrides_amended 16 (by norm_num)).2.2.2.2.2.2.2.2.2⟩

/-! ## C2 — command-line validation -/

/-- C2 counterexample: invoking the current program with `--scale 0`
(parsed scale = 0, font size default 16, no `--margin`) does **not** exit
with a diagnostic — the commander action proceeds straight into the
conversion (and its file I/O), because `src/index.js` contains no
validation of scale, font size or margins. -/
theorem c2_counterexample :
    (indexAction (.num 0) (.num 16) none).isExitError = false := by rfl

/-- C2 (amended): the current CLI (`src/index.js`) performs no validation
and proceeds for every parsed value; only the legacy script validates,
before any conversion file I/O: NaN or non-positive scale, then NaN or
non-positive font size, then (in order top, right, bottom, left) NaN or
negative margins each print a diagnostic naming the offending option and
exit with code 1; otherwise the conversion proceeds.  (The legacy checks
accept the non-finite value `Infinity`.) -/
theorem c2_validation_amended (scale fontSize : JSNum) (m : JSMargins)
    (marginOpt : Option JSNum) :
    ((indexAction scale fontSize marginOpt).isExitError = false) ∧
    ((scale.isNaN || scale.le 0) = true →
      legacyValidateAndRun scale fontSize m =
        .exitError 1 "Error: Scale factor must be a positive number") ∧
    ((scale.isNaN || scale.le 0) = false →
      (fontSize.isNaN || fontSize.le 0) = true →
      legacyValidateAndRun scale fontSize m =
        .exitError 1 "Error: Font size must be a positive number") ∧
    ((scale.isNaN || scale.le 0) = false →
      (fontSize.isNaN || fontSize.le 0) = false →
      (m.top.isNaN || m.top.lt 0) = true →
      legacyValidateAndRun scale fontSize m =
        .exitError 1 "Error: top margin must be a non-negative number") ∧
    ((scale.isNaN || scale.le 0) = false →
      (fontSize.isNaN || fontSize.le 0) = false →
      (m.top.isNaN || m.top.lt 0) = false →
      (m.right.isNaN || m.right.lt 0) = true →
      legacyValidateAndRun scale fontSize m =
        .exitError 1 "Error: right margin must be a non-negative number") ∧
    ((scale.isNaN || scale.le 0) = false →
      (fontSize.isNaN || fontSize.le 0) = false →
      (m.top.isNaN || m.top.lt 0) = false →
      (m.right.isNaN || m.right.lt 0) = false →
      (m.bottom.isNaN || m.bottom.lt 0) = true →
      legacyValidateAndRun scale fontSize m =
        .exitError 1 "Error: bottom margin must be a non-negative number") ∧
    ((scale.isNaN || scale.le 0) = false →
      (fontSize.isNaN || fontSize.le 0) = false →
      (m.top.isNaN || m.top.lt 0) = false →
      (m.right.isNaN || m.right.lt 0) = false →
      (m.bottom.isNaN || m.bottom.lt 0) = false →
      (m.left.isNaN || m.left.lt 0) = true →
      legacyValidateAndRun scale fontSize m =
        .exitError 1 "Error: left margin must be a non-negative number") ∧
    ((scale.isNaN || scale.le 0) = false →
      (fontSize.isNaN || fontSize.le 0) = false →
      (m.top.isNaN || m.top.lt 0) = false →
      (m.right.isNaN || m.right.lt 0) = false →
      (m.bottom.isNaN || m.bottom.lt 0) = false →
      (m.left.isNaN || m.left.lt 0) = false →
      legacyValidateAndRun scale fontSize m =
        .proceed { scale := scale, fontSize := fontSize, margins := m }) := by
  refine ⟨?_, ?_, ?_, ?_, ?_, ?_, ?_, ?_⟩ <;>
    intros <;>
    simp_all [indexAction, legacyValidateAndRun, CliOutcome.isExitError]

/-- Witness for C2 (amended): `--scale 0` makes the legacy script exit 1
naming the scale option, `--margin-top -5` (with valid scale and font
size) makes it exit 1 naming the top margin, and default-like valid values
proceed. -/
theorem c2_validation_amended_witness :
    legacyValidateAndRun (.num 0) (.num 16)
        { top := .num 25.4, right := .num 25.4, bottom := .num 25.4, left := .num 25.4 } =
      .exitError 1 "Error: Scale factor must be a positive number" ∧
    legacyValidateAndRun (.num 1) (.num 16)
        { top := .num (-5), right := .num 25.4, bottom := .num 25.4, left := .num 25.4 } =
      .exitError 1 "Error: top margin must be a non-negative number" ∧
    legacyValidateAndRun (.num 1) (.num 16)
        { top := .num 25.4, right := .num 25.4, bottom := .num 25.4, left := .num 25.4 } =
      .proceed { scale := .num 1, fontSize := .num 16,
                 margins := { top := .num 25.4, right := .num 25.4,
                              bottom := .num 25.4, left := .num 25.4 } } :=
  ⟨(c2_validation_amended (.num 0) (.num 16) _ none).2.1 (by norm_num [JSNum.isNaN, JSNum.le]),
   (c2_validation_amended (.num 1) (.num 16) _ none).2.2.2.1
     (by norm_num [JSNum.isNaN, JSNum.le])
     (by norm_num [JSNum.isNaN, JSNum.le])
     (by norm_num [JSNum.isNaN, JSNum.lt]),
   (c2_validation_amended (.num 1) (.num 16) _ none).2.2.2.2.2.2.2
     (by norm_num [JSNum.isNaN, JSNum.le])
     (by norm_num [JSNum.isNaN, JSNum.le])
     (by norm_num [JSNum.isNaN, JSNum.lt])
     (by norm_num [JSNum.isNaN, JSNum.lt])
     (by norm_num [JSNum.isNaN, JSNum.lt])
     (by norm_num [JSNum.isNaN, JSNum.lt])⟩

/-! ## Round-trip lemmas for percent-encoding -/

/-- Decoding a produced hex digit gives the digit back. -/
theorem hexVal_hexDigitUpper : ∀ b < 16, hexVal (hexDigitUpper b) = some b := by decide

/-- A character is a valid Unicode scalar value. -/
theorem char_toNat_lt (c : Char) : c.toNat < 1114112 := by
  have h := c.valid
  unfold UInt32.isValidChar at h
  show c.val.toNat < 1114112
  rcases h with h | h <;> omega

/-- A character code is a valid scalar value, in `Nat` form. -/
theorem char_toNat_isValidChar (c : Char) : Nat.isValidChar c.toNat := c.valid

/-- The UTF-8 encoding of a scalar value consists of bytes. -/
theorem utf8EncodeChar_lt_256 (n : Nat) (hn : n < 1114112) :
    ∀ b ∈ utf8EncodeChar n, b < 256 := by
  unfold utf8EncodeChar
  split_ifs <;> simp <;> omega

/-- An unreserved character is ASCII and is not `%`. -/
theorem isUnreserved_ascii_ne (c : Char) (h : isUnreservedURIChar c = true) :
    c.toNat < 128 ∧ c ≠ '%' := by
  unfold isUnreservedURIChar at h
  simp only [Bool.or_eq_true, Bool.and_eq_true, decide_eq_true_eq] at h
  constructor
  · omega
  · intro hc
    subst hc
    revert h
    decide

/-- The percent-decoder consumes the escape of one byte. -/
theorem pd_percentEncodeByte (b : Nat) (hb : b < 256) (out : List Nat) :
    List.foldl pdStep (.norm, out) (percentEncodeByte b) = (.norm, out ++ [b]) := by
  have h1 := hexVal_hexDigitUpper (b / 16) (by omega)
  have h2 := hexVal_hexDigitUpper (b % 16) (by omega)
  simp [percentEncodeByte, List.foldl, pdStep, h1, h2]
  omega

/-- The percent-decoder consumes a run of byte escapes. -/
theorem pd_bytes_run (bs : List Nat) (h : ∀ b ∈ bs, b < 256) (out : List Nat) :
    List.foldl pdStep (.norm, out) (bs.flatMap percentEncodeByte) = (.norm, out ++ bs) := by
  induction bs generalizing out with
  | nil => simp
  | cons b bs ih =>
    rw [List.flatMap_cons, List.foldl_append,
      pd_percentEncodeByte b (h b (by simp)) out,
      ih (fun x hx => h x (by simp [hx]))]
    simp

/-- The percent-decoder maps the encoding of one character to its UTF-8
bytes. -/
theorem pd_encodeURIChar (c : Char) (out : List Nat) :
    List.foldl pdStep (.norm, out) (encodeURIChar c) =
      (.norm, out ++ utf8EncodeChar c.toNat) := by
  unfold encodeURIChar
  by_cases h : isUnreservedURIChar c = true
  · obtain ⟨hlt, hne⟩ := isUnreserved_ascii_ne c h
    rw [if_pos h]
    have : utf8EncodeChar c.toNat = [c.toNat] := by
      unfold utf8EncodeChar
      rw [if_pos (by omega)]
    rw [this]
    simp [List.foldl, pdStep, hne]
  · rw [if_neg h]
    exact pd_bytes_run _ (utf8EncodeChar_lt_256 _ (char_toNat_lt c)) out

/-- The percent-decoder inverts `encodeURIComponent`, producing the UTF-8
bytes of the original text. -/
theorem pd_encode_list (l : List Char) (out : List Nat) :
    List.foldl pdStep (.norm, out) (l.flatMap encodeURIChar) =
      (.norm, out ++ utf8EncodeList l) := by
  induction l generalizing out with
  | nil => simp [utf8EncodeList]
  | cons c cs ih =>
    rw [List.flatMap_cons, List.foldl_append, pd_encodeURIChar, ih]
    simp [utf8EncodeList, List.flatMap_cons]

/-- `percentDecodeBytes` inverts character-level encoding. -/
theorem percentDecodeBytes_encode (l : List Char) :
    percentDecodeBytes (l.flatMap encodeURIChar) = some (utf8EncodeList l) := by
  unfold percentDecodeBytes
  rw [pd_encode_list]
  simp

/-! ## Round-trip lemmas for the UTF-8 decoder -/

/-- `u8Step` on an ASCII byte. -/
theorem u8Step_ascii (b : Nat) (hb : b < 0x80) (out : List Nat) :
    u8Step (.norm, out) b = (.norm, out ++ [b]) := by
  simp [u8Step, hb]

/-- `u8Step` on a two-byte leader. -/
theorem u8Step_lead2 (b : Nat) (h1 : 0xC0 ≤ b) (h2 : b < 0xE0) (out : List Nat) :
    u8Step (.norm, out) b = (.need 1 (b - 0xC0), out) := by
  simp only [u8Step]
  rw [if_neg (by omega), if_neg (by omega), if_pos h2]

/-- `u8Step` on a three-byte leader. -/
theorem u8Step_lead3 (b : Nat) (h1 : 0xE0 ≤ b) (h2 : b < 0xF0) (out : List Nat) :
    u8Step (.norm, out) b = (.need 2 (b - 0xE0), out) := by
  simp only [u8Step]
  rw [if_neg (by omega), if_neg (by omega), if_neg (by omega), if_pos h2]

/-- `u8Step` on a four-byte leader. -/
theorem u8Step_lead4 (b : Nat) (h1 : 0xF0 ≤ b) (h2 : b < 0xF8) (out : List Nat) :
    u8Step (.norm, out) b = (.need 3 (b - 0xF0), out) := by
  simp only [u8Step]
  rw [if_neg (by omega), if_neg (by omega), if_neg (by omega), if_neg (by omega),
    if_pos h2]

/-- `u8Step` on the final continuation byte. -/
theorem u8Step_cont_last (b acc : Nat) (h : 0x80 ≤ b ∧ b < 0xC0) (out : List Nat) :
    u8Step (.need 1 acc, out) b = (.norm, out ++ [acc * 64 + (b - 0x80)]) := by
  simp [u8Step, h]

/-- `u8Step` on a non-final continuation byte. -/
theorem u8Step_cont_more (b acc k : Nat) (h : 0x80 ≤ b ∧ b < 0xC0) (out : List Nat) :
    u8Step (.need (k + 2) acc, out) b = (.need (k + 1) (acc * 64 + (b - 0x80)), out) := by
  simp [u8Step, h]

set_option maxRecDepth 4000 in
/-- The UTF-8 decoder maps the encoding of one scalar value back to it. -/
theorem u8_encodeChar (n : Nat) (hn : n < 1114112) (out : List Nat) :
    List.foldl u8Step (.norm, out) (utf8EncodeChar n) = (.norm, out ++ [n]) := by
  unfold utf8EncodeChar
  split_ifs with h1 h2 h3
  · simp only [List.foldl]
    rw [u8Step_ascii n h1]
  · simp only [List.foldl]
    rw [u8Step_lead2 (0xC0 + n / 64) (by omega) (by omega),
      u8Step_cont_last _ _ (by omega)]
    have he : (0xC0 + n / 64 - 0xC0) * 64 + (0x80 + n % 64 - 0x80) = n := by omega
    rw [he]
  · simp only [List.foldl]
    rw [u8Step_lead3 (0xE0 + n / 4096) (by omega) (by omega),
      u8Step_cont_more _ _ 0 (by omega),
      u8Step_cont_last _ _ (by omega)]
    have he : ((0xE0 + n / 4096 - 0xE0) * 64 + (0x80 + n / 64 % 64 - 0x80)) * 64 +
        (0x80 + n % 64 - 0x80) = n := by omega
    rw [he]
  · simp only [List.foldl]
    rw [u8Step_lead4 (0xF0 + n / 262144) (by omega) (by omega),
      u8Step_cont_more _ _ 1 (by omega),
      u8Step_cont_more _ _ 0 (by omega),
      u8Step_cont_last _ _ (by omega)]
    have he : (((0xF0 + n / 262144 - 0xF0) * 64 + (0x80 + n / 4096 % 64 - 0x80)) * 64 +
        (0x80 + n / 64 % 64 - 0x80)) * 64 + (0x80 + n % 64 - 0x80) = n := by omega
    rw [he]

/-- The UTF-8 decoder maps the encoding of a text back to its scalar
values. -/
theorem u8_encode_list (l : List Char) (out : List Nat) :
    List.foldl u8Step (.norm, out) (utf8EncodeList l) =
      (.norm, out ++ l.map Char.toNat) := by
  induction l generalizing out with
  | nil => simp [utf8EncodeList]
  | cons c cs ih =>
    rw [show utf8EncodeList (c :: cs) = utf8EncodeChar c.toNat ++ utf8EncodeList cs by
          unfold utf8EncodeList
          rw [List.flatMap_cons]]
    rw [List.foldl_append, u8_encodeChar c.toNat (char_toNat_lt c), ih]
    simp

/-- `utf8DecodeBytes` inverts `utf8EncodeList`. -/
theorem utf8DecodeBytes_encode (l : List Char) :
    utf8DecodeBytes (utf8EncodeList l) = some (l.map Char.toNat) := by
  unfold utf8DecodeBytes
  rw [u8_encode_list]
  simp

/-- Scalar values of a text reassemble to the very same characters. -/
theorem charsOfCodepoints_map (l : List Char) :
    charsOfCodepoints (l.map Char.toNat) = some l := by
  induction l with
  | nil => rfl
  | cons c cs ih =>
    unfold charsOfCodepoints at ih ⊢
    rw [List.map_cons, List.mapM_cons, ih]
    have hv := char_toNat_isValidChar c
    have hc : Char.ofNatAux c.toNat hv = c := by
      have h2 := Char.ofNat_toNat c
      unfold Char.ofNat at h2
      rwa [dif_pos hv] at h2
    simp [hv, hc]

/-- Percent-decoding recovers the text encoded by `encodeURIComponent`
exactly. -/
theorem percentDecode_encodeURIComponent (s : String) :
    percentDecode (encodeURIComponent s) = some s := by
  unfold percentDecode encodeURIComponent
  rw [show (⟨s.data.flatMap encodeURIChar⟩ : String).data
      = s.data.flatMap encodeURIChar from rfl]
  rw [percentDecodeBytes_encode, Option.some_bind, utf8DecodeBytes_encode,
    Option.some_bind, charsOfCodepoints_map, Option.map_some']

/-! ## Round-trip lemmas for base64 -/

/-- Decoding a produced base64 character gives its index back. -/
theorem b64Val_b64Char : ∀ v < 64, b64Val (b64Char v) = some v := by decide

/-- A produced base64 character is never the padding `=`. -/
theorem b64Char_ne_pad : ∀ v < 64, b64Char v ≠ '=' := by decide

/-- Base64 decoding inverts base64 encoding on byte lists. -/
theorem base64_roundtrip :
    ∀ l : List Nat, (∀ b ∈ l, b < 256) → base64DecodeL (base64EncodeL l) = some l
  | [] => fun _ => rfl
  | [a] => fun h => by
    have ha : a < 256 := h a (by simp)
    have h1 := b64Val_b64Char (a / 4) (by omega)
    have h2 := b64Val_b64Char (a % 4 * 16) (by omega)
    simp [base64EncodeL, base64DecodeL, h1, h2]
    omega
  | [a, b] => fun h => by
    have ha : a < 256 := h a (by simp)
    have hb : b < 256 := h b (by simp)
    have h1 := b64Val_b64Char (a / 4) (by omega)
    have h2 := b64Val_b64Char (a % 4 * 16 + b / 16) (by omega)
    have h3 := b64Val_b64Char (b % 16 * 4) (by omega)
    have hne3 := b64Char_ne_pad (b % 16 * 4) (by omega)
    simp [base64EncodeL, base64DecodeL, h1, h2, h3, hne3]
    omega
  | a :: b :: c :: rest => fun h => by
    have ha : a < 256 := h a (by simp)
    have hb : b < 256 := h b (by simp)
    have hc : c < 256 := h c (by simp)
    have ih := base64_roundtrip rest (fun x hx => h x (by simp [hx]))
    have h1 := b64Val_b64Char (a / 4) (by omega)
    have h2 := b64Val_b64Char (a % 4 * 16 + b / 16) (by omega)
    have h3 := b64Val_b64Char (b % 16 * 4 + c / 64) (by omega)
    have h4 := b64Val_b64Char (c % 64) (by omega)
    have hne3 := b64Char_ne_pad (b % 16 * 4 + c / 64) (by omega)
    have hne4 := b64Char_ne_pad (c % 64) (by omega)
    simp [base64EncodeL, base64DecodeL, h1, h2, h3, h4, hne3, hne4, ih]
    omega

/-! ## C5 — SVG inlining -/

/-- C5: For every image path whose (lowercased) extension is `.svg` whose
text was read successfully, the inliner rejects the content as malformed
(warning, `null`) unless it contains an `<svg` tag, and otherwise produces
exactly `data:image/svg+xml;utf8,` followed by the percent-encoding of the
original file text — no base64 re-encoding — and percent-decoding recovers
the original SVG text exactly. -/
theorem c5_svg_inlining (p : String) (fsys : FileSys) (t : String)
    (hext : toLowerStr (extnameOf p) = ".svg")
    (hread : fsys.readText p = some t) :
    (strContains t "<svg" = true →
      imageToDataURL fsys p =
        (some ("data:image/svg+xml;utf8," ++ encodeURIComponent t), []) ∧
      percentDecode (encodeURIComponent t) = some t) ∧
    (strContains t "<svg" = false →
      imageToDataURL fsys p = (none, [.couldNotProcessSVG p])) := by
  constructor
  · intro hc
    constructor
    · unfold imageToDataURL processSVG
      rw [if_pos hext, hread]
      simp [hc]
    · exact percentDecode_encodeURIComponent t
  · intro hc
    unfold imageToDataURL processSVG
    rw [if_pos hext, hread]
    simp [hc]

/-- Witness for C5: a file `a.svg` containing `<svg></svg>` becomes the
percent-encoded `utf8` data URL and round-trips; a file `bad.svg` without
an `<svg` tag is rejected. -/
theorem c5_svg_inlining_witness :
    imageToDataURL fsSvgSample "a.svg" =
      (some ("data:image/svg+xml;utf8," ++ encodeURIComponent "<svg></svg>"), []) ∧
    percentDecode (encodeURIComponent "<svg></svg>") = some "<svg></svg>" ∧
    imageToDataURL fsSvgSample "bad.svg" = (none, [.couldNotProcessSVG "bad.svg"]) :=
  ⟨((c5_svg_inlining "a.svg" fsSvgSample "<svg></svg>" (by decide) (by rfl)).1
      (by decide)).1,
   ((c5_svg_inlining "a.svg" fsSvgSample "<svg></svg>" (by decide) (by rfl)).1
      (by decide)).2,
   (c5_svg_inlining "bad.svg" fsSvgSample "plain text" (by decide) (by rfl)).2
      (by decide)⟩

/-! ## C6 — raster inlining -/

/-- C6: For every image path whose (lowercased) extension is not `.svg`
and whose bytes were read successfully, the inliner produces exactly
`data:image/<mime>;base64,<B>` where `<mime>` is `jpeg` for the `jpg`
extension and the extension verbatim otherwise, and base64-decoding `<B>`
reproduces the file bytes exactly. -/
theorem c6_raster_inlining (p : String) (fsys : FileSys) (bytes : List Nat)
    (hext : toLowerStr (extnameOf p) ≠ ".svg")
    (hread : fsys.readBin p = some bytes)
    (hbytes : ∀ b ∈ bytes, b < 256) :
    imageToDataURL fsys p =
      (some ("data:" ++
        ("image/" ++
          (if (toLowerStr (extnameOf p)).drop 1 = "jpg" then "jpeg"
           else (toLowerStr (extnameOf p)).drop 1)) ++
        ";base64," ++ base64Encode bytes), []) ∧
    base64Decode (base64Encode bytes) = some bytes := by
  constructor
  · unfold imageToDataURL
    rw [if_neg hext, hread]
  · exact base64_roundtrip bytes hbytes

/-- Witness for C6: a `.png` file becomes `data:image/png;base64,...`, a
`.jpg` file becomes `data:image/jpeg;base64,...`, and decoding recovers
the bytes. -/
theorem c6_raster_inlining_witness :
    imageToDataURL fsRasterSample "a.png" =
      (some "data:image/png;base64,iVBORw==", []) ∧
    base64Decode "iVBORw==" = some [137, 80, 78, 71] ∧
    imageToDataURL fsRasterSample "b.jpg" =
      (some "data:image/jpeg;base64,/9g=", []) :=
  ⟨(c6_raster_inlining "a.png" fsRasterSample [137, 80, 78, 71]
      (by decide) (by rfl) (by decide)).1,
   (c6_raster_inlining "a.png" fsRasterSample [137, 80, 78, 71]
      (by decide) (by rfl) (by decide)).2,
   (c6_raster_inlining "b.jpg" fsRasterSample [255, 216]
      (by decide) (by rfl) (by decide)).1⟩

/-! ## C3 — per-image failure policy -/

/-- C3 counterexample: with a filesystem on which every read fails, the
single local image reference `a.png` is **not** left unmodified — the
inliner replaces it with the resolved absolute path `/b/a.png` (the
`imageToDataURL` catch branch returns the input path, which is truthy, so
`html.replace(src, dataUrl)` fires), contradicting the claim that a read
failure leaves that single src unmodified. -/
theorem c3_counterexample :
    (processLocalImages fsFailAll "<img src=\"a.png\">" "/b").1 =
      "<img src=\"/b/a.png\">" ∧
    ("<img src=\"/b/a.png\">" : String) ≠ "<img src=\"a.png\">" := by
  constructor
  · rfl
  · decide

/-- C3 (amended): a failed read or validation of one image is non-fatal
and warned about, and inlining continues with the remaining images; but
the failing src is left unmodified only in the SVG branch (where the
conversion yields `null`); in the raster branch a read failure rewrites
the src to the resolved absolute input path of `imageToDataURL`. -/
theorem c3_failure_policy_amended (fsys : FileSys) (basePath html : String)
    (warns : List Warn) (src : String)
    (h1 : startsWithL src.data "http://".data = false)
    (h2 : startsWithL src.data "https://".data = false)
    (h3 : startsWithL src.data "data:".data = false) :
    (toLowerStr (extnameOf (pathResolve basePath src)) = ".svg" →
      (processSVG fsys (pathResolve basePath src)).1 = none →
      processOneImage fsys basePath (html, warns) src =
        (html, warns ++ [.couldNotProcessSVG (pathResolve basePath src)])) ∧
    (toLowerStr (extnameOf (pathResolve basePath src)) ≠ ".svg" →
      fsys.readBin (pathResolve basePath src) = none →
      processOneImage fsys basePath (html, warns) src =
        (replaceFirst html src (pathResolve basePath src),
         warns ++ [.couldNotLoadImage (pathResolve basePath src)])) := by
  have hcond : (¬(startsWithL src.data ("http://" : String).data = true) ∧
      ¬(startsWithL src.data ("https://" : String).data = true) ∧
      ¬(startsWithL src.data ("data:" : String).data = true)) := by
    simp [h1, h2, h3]
  constructor
  · intro hext hsvg
    have hps : processSVG fsys (pathResolve basePath src) =
        (none, [.couldNotProcessSVG (pathResolve basePath src)]) := by
      unfold processSVG at hsvg ⊢
      cases hr : fsys.readText (pathResolve basePath src) with
      | none => rfl
      | some t =>
        rw [hr] at hsvg
        cases hc : strContains t "<svg" with
        | true => simp [hc] at hsvg
        | false => simp [hc]
    have himg : imageToDataURL fsys (pathResolve basePath src) =
        (none, [.couldNotProcessSVG (pathResolve basePath src)]) := by
      unfold imageToDataURL
      rw [if_pos hext, hps]
    unfold processOneImage
    rw [if_pos hcond, himg]
  · intro hext hread
    have himg : imageToDataURL fsys (pathResolve basePath src) =
        (some (pathResolve basePath src),
         [.couldNotLoadImage (pathResolve basePath src)]) := by
      unfold imageToDataURL
      rw [if_neg hext, hread]
    unfold processOneImage
    rw [if_pos hcond, himg]

/-- Witness for C3 (amended), on the two-image fragment
`<img src="bad.svg"><img src="ok.png">` with a filesystem on which every
read fails: the SVG failure leaves the src untouched and warns, the raster
failure rewrites the src to `/b/ok.png` and warns, and the full run shows
both images were processed (the first failure did not abort the second). -/
theorem c3_failure_policy_amended_witness :
    processOneImage fsFailAll "/b" ("<img src=\"bad.svg\"><img src=\"ok.png\">", [])
        "bad.svg" =
      ("<img src=\"bad.svg\"><img src=\"ok.png\">", [.couldNotProcessSVG "/b/bad.svg"]) ∧
    processOneImage fsFailAll "/b" ("<img src=\"bad.svg\"><img src=\"ok.png\">",
        [.couldNotProcessSVG "/b/bad.svg"]) "ok.png" =
      ("<img src=\"bad.svg\"><img src=\"/b/ok.png\">",
       [.couldNotProcessSVG "/b/bad.svg", .couldNotLoadImage "/b/ok.png"]) ∧
    processLocalImages fsFailAll "<img src=\"bad.svg\"><img src=\"ok.png\">" "/b" =
      ("<img src=\"bad.svg\"><img src=\"/b/ok.png\">",
       [.couldNotProcessSVG "/b/bad.svg", .couldNotLoadImage "/b/ok.png"]) :=
  ⟨(c3_failure_policy_amended fsFailAll "/b" _ [] "bad.svg"
      (by decide) (by decide) (by decide)).1 (by decide) (by decide),
   (c3_failure_policy_amended fsFailAll "/b" _ [.couldNotProcessSVG "/b/bad.svg"] "ok.png"
      (by decide) (by decide) (by decide)).2 (by decide) (by decide),
   by rfl⟩

/-! ## C7 — remote and data URLs -/

/-- C7 counterexample: on the fragment
`<img src="http://e.com/a.png"><img src="a.png">` (with the local read
failing), processing the *local* `a.png` replaces the first occurrence of
the string `a.png` in the whole document — which lies inside the remote
URL — so the remote `<img>`'s src, which the claim says is never
rewritten, is corrupted (the output no longer contains
`http://e.com/a.png`). -/
theorem c7_counterexample :
    strContains "<img src=\"http://e.com/a.png\"><img src=\"a.png\">"
      "http://e.com/a.png" = true ∧
    strContains
      (processLocalImages fsFailAll
        "<img src=\"http://e.com/a.png\"><img src=\"a.png\">" "/b").1
      "http://e.com/a.png" = false := by
  constructor
  · decide
  · rfl

/-- C7 (amended): the inliner never *selects* an `<img>` whose src starts
with `http://`, `https://` or `data:` for conversion: when every matched
src has one of these prefixes the fragment is returned unchanged (with no
warnings).  However, replacing a processed local src substitutes its
first occurrence in the whole document, which can corrupt a remote URL
that contains the local src as a substring. -/
theorem c7_remote_never_selected_amended (fsys : FileSys) (basePath html : String)
    (h : ∀ src ∈ imgSrcs html,
      startsWithL src.data "http://".data = true ∨
      startsWithL src.data "https://".data = true ∨
      startsWithL src.data "data:".data = true) :
    processLocalImages fsys html basePath = (html, []) := by
  unfold processLocalImages
  have H : ∀ (srcs : List String) (st : String × List Warn),
      (∀ src ∈ srcs,
        startsWithL src.data "http://".data = true ∨
        startsWithL src.data "https://".data = true ∨
        startsWithL src.data "data:".data = true) →
      srcs.foldl (processOneImage fsys basePath) st = st := by
    intro srcs
    induction srcs with
    | nil => intro st _; rfl
    | cons s ss ih =>
      intro st hs
      rw [List.foldl_cons]
      have hskip : processOneImage fsys basePath st s = st := by
        unfold processOneImage
        rcases hs s (by simp) with h1 | h1 | h1 <;>
          rw [if_neg (by simp [h1])]
      rw [hskip]
      exact ih st (fun x hx => hs x (by simp [hx]))
  exact H _ _ h

/-- Witness for C7 (amended): a fragment with one `http`, one `https` and
one `data:` image is returned unchanged. -/
theorem c7_remote_never_selected_amended_witness :
    processLocalImages fsFailAll
      "<img src=\"http://x/y.png\"><img src=\"https://x/z.png\"><img src=\"data:image/png;base64,AA==\">"
      "/b" =
      ("<img src=\"http://x/y.png\"><img src=\"https://x/z.png\"><img src=\"data:image/png;base64,AA==\">",
       []) :=
  c7_remote_never_selected_amended fsFailAll "/b" _ (by decide)

end MdToPdf
